import Mathlib
/-!
A shallow embedding of Orient-JS (src/dist/orient.js).

The tour controller of `orient.js` is modelled as a state machine over
`OrientState`.  DOM effects are made explicit:

* the page body is the list of element ids currently appended to it;
* slide wrapper elements are identified by a fresh `elId` drawn from a counter;
* `document.querySelector` is an association list from query strings to the
  ids of the target elements present on the page;
* throwing DOM operations (`removeChild(null)`, `appendChild(undefined)`,
  setting `src` on `undefined`, property access on `undefined`) are modelled
  with `Except String`;
* `console.error` / `console.log` append to explicit logs, and the execution
  of an `onEnd` script is recorded in `onEndRuns` (the scripts are external
  code, outside the controller's state).

Pixel coordinates are rationals (the source only adds, subtracts, compares
and halves finite JS numbers, which exact rational arithmetic reproduces on
the inputs considered here).
-/
/-! ## Concrete fixtures used by examples, witnesses and counterexamples -/
/-! ## Helper lemmas about the page model -/

/-- A single-quote character as a string, used to build the
`[data-orient-target='...']` attribute query exactly as the source does. -/
def squote : String := (Char.ofNat 39).toString
/-- JS truthiness of an optional string property: absent and the empty
string are falsy, everything else truthy. -/
def truthyStr : Option String → Bool
  | none => false
  | some s => !(s == "")
/-- The result of `getBoundingClientRect` / `getElAbsolutePosition`:
`left/right/top/bottom/height/width`. -/
structure Rect where
  left : Rat
  right : Rat
  top : Rat
  bottom : Rat
  height : Rat
  width : Rat
  deriving DecidableEq
/-- The `media` object of a slide definition in a FlowFile.  Absent JS
properties are `none`. -/
structure Media where
  type : Option String
  url : Option String
  muted : Option Bool
  loop : Option Bool
  controls : Option Bool
  autoplay : Option Bool
  deriving DecidableEq
/-- One slide definition from `flowData`. -/
structure Slide where
  title : String
  body : String
  style : String
  target : Option String
  media : Option Media
  extraClasses : List String
  onShow : Option String
  onEnd : Option String
  deriving DecidableEq
/-- The media element built inside `buildSlide`: a `<video>` (with its four
attributes) or an `<img>`, each with an optional `src`. -/
inductive MediaEl where
  | video (muted loop controls autoplay : Bool) (src : Option String)
  | img (src : Option String)
  deriving DecidableEq
/-- `slideMediaEl.src = url`. -/
def MediaEl.setSrc : MediaEl → String → MediaEl
  | .video m l c a _, u => .video m l c a (some u)
  | .img _, u => .img (some u)
/-- The mutable state of the inner slide element `this.slideEl`:
its class list and the inline styles `positionSlide` writes
(`top`, `left`, `right`, values in px). -/
structure SlideElState where
  classes : List String
  styleTop : Option Rat
  styleLeft : Option Rat
  styleRight : Option Rat
  deriving DecidableEq
/-- The wrapper element returned by `buildSlide` (the `slideWrapperEl`,
which becomes `this.activeSlideEl`).  `elId` is its identity, `slideIndex`
the index it was built from. -/
structure SlideWrapperEl where
  elId : Nat
  slideIndex : Nat
  mediaEl : Option MediaEl
  hasOverlay : Bool
  hasPrevButton : Bool
  hasNextButton : Bool
  hasOnShowScript : Bool
  deriving DecidableEq
/-- A page element that a float slide can attach to: its id, its
viewport-relative bounding rect, its class list and whether it carries an
inline `style` attribute. -/
structure TargetEl where
  tid : Nat
  rect : Rect
  classes : List String
  hasStyleAttr : Bool
  deriving DecidableEq
/-- The browser page: target elements, the `document.querySelector` table
(query string to element id), viewport size and scroll position. -/
structure Page where
  els : List TargetEl
  queryMap : List (String × Nat)
  innerWidth : Rat
  innerHeight : Rat
  scrollX : Rat
  scrollY : Rat
  deriving DecidableEq
/-- Looks up an element on the page by id. -/
def getEl (p : Page) (tid : Nat) : Option TargetEl :=
  p.els.find? (fun el => el.tid == tid)
/-- `classList.add`: appends a class token unless it is already present. -/
def addClass (cs : List String) (c : String) : List String :=
  if cs.contains c then cs else cs ++ [c]
/-- `classList.add('orient-target-el')` on the page element `tid`. -/
def addTargetClass (p : Page) (tid : Nat) : Page :=
  { p with els := p.els.map (fun el =>
      if el.tid == tid then { el with classes := addClass el.classes "orient-target-el" } else el) }
/-- `removeAttribute('style')` and `classList.remove('orient-target-el')`
on the page element `tid` (the body of `removeAttachedTargetStyles`). -/
def clearTargetStyles (p : Page) (tid : Nat) : Page :=
  { p with els := p.els.map (fun el =>
      if el.tid == tid then
        { el with classes := el.classes.erase "orient-target-el", hasStyleAttr := false }
      else el) }
/-- Every entry of the `querySelector` table points at an element that is
actually on the page. -/
def Page.wf (p : Page) : Bool :=
  p.queryMap.all (fun qp => p.els.any (fun el => el.tid == qp.2))
/-- The whole controller state: the fields `init` sets on `this`, plus the
explicit model of the page.  `activeSlideIndex` and `activeSlideEl` are
`none` when the source holds `null`. -/
structure OrientState where
  flowURL : String
  flowData : List Slide
  activeSlideIndex : Option Nat
  activeSlideEl : Option SlideWrapperEl
  attachTargetEl : Option Nat
  slideEl : Option SlideElState
  autoScroll : Bool
  overlay : Bool
  bodyChildren : List Nat
  page : Page
  nextId : Nat
  errors : List String
  logs : List String
  onEndRuns : List Nat
  keydownListenerAttached : Bool
  deriving DecidableEq
/-- `console.error`. -/
def logError (st : OrientState) (msg : String) : OrientState :=
  { st with errors := st.errors ++ [msg] }
/-- `console.log`. -/
def logInfo (st : OrientState) (msg : String) : OrientState :=
  { st with logs := st.logs ++ [msg] }
def removeChildNullMsg : String :=
  "TypeError: parameter 1 is not of type Node (removeChild null)"
def removeChildNotFoundMsg : String :=
  "NotFoundError: the node to be removed is not a child of this node"
def appendChildNullMsg : String :=
  "TypeError: parameter 1 is not of type Node (appendChild null)"
def undefinedSlideMsg : String :=
  "TypeError: cannot read properties of undefined (flowData slide)"
def setSrcUndefinedMsg : String :=
  "TypeError: cannot set properties of undefined (setting src)"
def appendChildUndefinedMsg : String :=
  "TypeError: parameter 1 is not of type Node (appendChild undefined)"
def slideElNullMsg : String :=
  "TypeError: cannot read properties of null (reading style)"
def mediaTypeMsg : String :=
  "[ORIENT] Media type should be " ++ squote ++ "video" ++ squote ++ " or "
    ++ squote ++ "image" ++ squote
def mediaUrlMsg (idx : Nat) : String :=
  "[ORIENT] URL not specified for the media element on slide " ++ toString (idx + 1)
def attachErrMsg (t : String) : String :=
  "[ORIENT] Could not attach slide to element " ++ t
def jumpRangeMsg (n : Nat) : String :=
  "[ORIENT] Slide number must be between 1 and " ++ toString n ++ " inclusive."
def atStartMsg : String :=
  "[ORIENT] At start of flow - can" ++ squote ++ "t go any further back."
/-- `document.body.removeChild(el)`: throws on `null` and on a non-child. -/
def removeChild (body : List Nat) (el : Option Nat) : Except String (List Nat) :=
  match el with
  | none => .error removeChildNullMsg
  | some i => if i ∈ body then .ok (body.erase i) else .error removeChildNotFoundMsg
/-- `this.flowData[this.activeSlideIndex]`; property access on the result
throws when the index is `null` or out of range. -/
def getActiveSlide (st : OrientState) : Except String (Nat × Slide) :=
  match st.activeSlideIndex with
  | none => .error undefinedSlideMsg
  | some idx =>
    match st.flowData[idx]? with
    | none => .error undefinedSlideMsg
    | some sd => .ok (idx, sd)
/-- `removeAttachedTargetStyles` from the source: if `this.attachTargetEl`
is set, drop its `style` attribute and the `orient-target-el` class.
(The reference itself is not reset.) -/
def removeAttachedTargetStyles (st : OrientState) : OrientState :=
  match st.attachTargetEl with
  | none => st
  | some tid => { st with page := clearTargetStyles st.page tid }
/-- `getElAbsolutePosition` from the source: the bounding rect shifted by
the page scroll offsets.  (`scrollX`/`scrollY` and
`pageXOffset`/`pageYOffset` are aliases in this model, so the IE-compat
branch reads the same values either way.) -/
def getElAbsolutePosition (p : Page) (el : TargetEl) : Rect :=
  { left := el.rect.left + p.scrollX
    right := el.rect.right + p.scrollX
    top := el.rect.top + p.scrollY
    bottom := el.rect.bottom + p.scrollY
    height := el.rect.height
    width := el.rect.width }
/-- The query string `positionSlide` hands to `document.querySelector`:
the selector itself when it starts with `#` or `.`, otherwise an attribute
query on `data-orient-target`. -/
def targetQuery (t : String) : String :=
  if t.front = '#' ∨ t.front = '.' then t
  else "[data-orient-target=" ++ squote ++ t ++ squote ++ "]"
/-- `positionSlide` from the source, verbatim control flow:
early return on a falsy `target`; resolve; on failure log and pin the
slide to (0,0); on success highlight the target, left- or right-align,
set `top`, and auto-scroll via `window.scrollTo(0, scrollY)`. -/
def positionSlide (st : OrientState) : Except String OrientState :=
  match getActiveSlide st with
  | .error e => .error e
  | .ok (_, sd) =>
    match sd.target with
    | none => .ok st
    | some t =>
      if t = "" then .ok st
      else
        let res := st.page.queryMap.lookup (targetQuery t)
        let st1 := { st with attachTargetEl := res }
        match res with
        | none =>
          let st2 := logError st1 (attachErrMsg t)
          match st2.slideEl with
          | none => .error slideElNullMsg
          | some sl =>
            .ok { st2 with slideEl := some { sl with styleTop := some 0, styleLeft := some 0 } }
        | some tid =>
          let st2 := { st1 with page := addTargetClass st1.page tid }
          match getEl st2.page tid with
          | none => .error "model: resolved element not present on the page"
          | some tEl =>
            let boundingRect := getElAbsolutePosition st2.page tEl
            match st2.slideEl with
            | none => .error slideElNullMsg
            | some sl =>
              -- 360 is the width of a floating slide (.orient-slide--float).
              let sl1 :=
                if boundingRect.left + 360 > st2.page.innerWidth then
                  { sl with classes := addClass sl.classes "orient-slide--aligned-right"
                            styleRight := some (st2.page.innerWidth - boundingRect.right) }
                else
                  { sl with styleLeft := some boundingRect.left }
              let sl2 := { sl1 with styleTop := some (boundingRect.top + boundingRect.height) }
              let st3 := { st2 with slideEl := some sl2 }
              if st3.autoScroll then
                let sY := (boundingRect.top + boundingRect.height) - (st3.page.innerHeight / 2)
                let sY := if sY < 0 then 0 else sY
                .ok { st3 with page := { st3.page with scrollX := 0, scrollY := sY } }
              else
                .ok st3
/-- The media section of `buildSlide` (source lines 209-243): create a
`<video>` with its defaults or an `<img>`, log an error for an unknown
type, set `src` or log an error for a missing URL — with the source's two
crashing dereferences of the still-undefined element. -/
def buildMedia (st : OrientState) (idx : Nat) (sd : Slide) :
    Except String (Option MediaEl × OrientState) :=
  match sd.media with
  | none => .ok (none, st)
  | some m =>
    let el0 : Option MediaEl :=
      if m.type = some "video" then
        some (.video (m.muted.getD true) (m.loop.getD true)
                     (m.controls.getD false) (m.autoplay.getD true) none)
      else if m.type = some "image" then some (.img none)
      else none
    let st3 := if el0.isNone then logError st mediaTypeMsg else st
    match m.url with
    | some u =>
      match el0 with
      | none => .error setSrcUndefinedMsg           -- slideMediaEl.src on undefined
      | some el => .ok (some (el.setSrc u), st3)
    | none =>
      let st4 := logError st3 (mediaUrlMsg idx)
      match el0 with
      | none => .error appendChildUndefinedMsg      -- appendChild(undefined)
      | some el => .ok (some el, st4)
/-- The inner slide element as `createElement` makes it at the top of
`buildSlide`: class string
'animated fadeInDown orient-slide orient-slide--(style)' plus the
`extraClasses` appended in declaration order, and no inline styles yet. -/
def freshSlideEl (sd : Slide) : SlideElState :=
  { classes := ["animated", "fadeInDown", "orient-slide", "orient-slide--" ++ sd.style]
                 ++ sd.extraClasses
    styleTop := none, styleLeft := none, styleRight := none }
/-- The body of `buildSlide` once the active slide `sd` at index `idx` has
been fetched: the class list of the inner slide element, the float
positioning call, the media block, and the wrapper structure. -/
def buildSlideCore (st : OrientState) (idx : Nat) (sd : Slide) :
    Except String (SlideWrapperEl × OrientState) :=
  let st1 := { st with slideEl := some (freshSlideEl sd) }
  let posRes := if sd.style = "float" then positionSlide { st1 with attachTargetEl := none }
                else .ok st1
  match posRes with
  | .error e => .error e
  | .ok st2 =>
    match buildMedia st2 idx sd with
    | .error e => .error e
    | .ok (mediaEl, st5) =>
      let e : SlideWrapperEl :=
        { elId := st5.nextId
          slideIndex := idx
          mediaEl := mediaEl
          hasOverlay := st5.overlay
          hasPrevButton := decide (0 < idx)
          hasNextButton := decide (idx < st5.flowData.length - 1)
          hasOnShowScript := truthyStr sd.onShow }
      .ok (e, { st5 with nextId := st5.nextId + 1 })
/-- `buildSlide` from the source, restricted to the state it observes and
produces. -/
def buildSlide (st : OrientState) : Except String (SlideWrapperEl × OrientState) :=
  match getActiveSlide st with
  | .error e => .error e
  | .ok (idx, sd) => buildSlideCore st idx sd
/-- `insertSlide`: `document.body.appendChild(this.activeSlideEl)`. -/
def insertSlide (st : OrientState) : Except String OrientState :=
  match st.activeSlideEl with
  | none => .error appendChildNullMsg
  | some e => .ok { st with bodyChildren := st.bodyChildren ++ [e.elId] }
/-- `stopFlow` from the source. -/
def stopFlow (st : OrientState) : Except String OrientState :=
  match st.activeSlideEl with
  | some e =>
    match removeChild st.bodyChildren (some e.elId) with
    | .error err => .error err
    | .ok body =>
      let st1 := removeAttachedTargetStyles { st with bodyChildren := body }
      .ok { st1 with activeSlideEl := none, activeSlideIndex := none,
                     keydownListenerAttached := false }
  | none =>
    .ok { st with activeSlideEl := none, activeSlideIndex := none,
                  keydownListenerAttached := false }
/-- `startFlow` from the source. -/
def startFlow (st : OrientState) : Except String OrientState :=
  let st0 := { st with activeSlideIndex := some 0 }
  match buildSlide st0 with
  | .error e => .error e
  | .ok (e, st1) => insertSlide { st1 with activeSlideEl := some e }
/-- `nextSlide` from the source: remove the current element, clear target
styling, run `onEnd`, increment the index, then either tear down (past the
end) or build and insert the next slide. -/
def nextSlide (st : OrientState) : Except String OrientState :=
  match removeChild st.bodyChildren (st.activeSlideEl.map (fun e => e.elId)) with
  | .error e => .error e
  | .ok body =>
    let st1 := removeAttachedTargetStyles { st with bodyChildren := body }
    match getActiveSlide st1 with
    | .error e => .error e
    | .ok (idx, sd) =>
      let st2 := if truthyStr sd.onEnd then { st1 with onEndRuns := st1.onEndRuns ++ [idx] } else st1
      let idx2 := idx + 1
      let st3 := { st2 with activeSlideIndex := some idx2 }
      -- reachable only with idx2 ≤ flowData.length, where Nat and JS
      -- subtraction in `flowData.length - 1` agree
      if idx2 > st3.flowData.length - 1 then
        stopFlow { st3 with activeSlideEl := none }
      else
        match buildSlide st3 with
        | .error e => .error e
        | .ok (e, st4) => insertSlide { st4 with activeSlideEl := some e }
/-- `prevSlide` from the source: run `onEnd` first, then either move back
(removing the current element and its target styling) or log the
at-start-of-flow diagnostic. -/
def prevSlide (st : OrientState) : Except String OrientState :=
  match getActiveSlide st with
  | .error e => .error e
  | .ok (idx, sd) =>
    let st1 := if truthyStr sd.onEnd then { st with onEndRuns := st.onEndRuns ++ [idx] } else st
    if 0 < idx then
      match removeChild st1.bodyChildren (st1.activeSlideEl.map (fun e => e.elId)) with
      | .error e => .error e
      | .ok body =>
        let st2 := removeAttachedTargetStyles { st1 with bodyChildren := body }
        let st3 := { st2 with activeSlideIndex := some (idx - 1) }
        match buildSlide st3 with
        | .error e => .error e
        | .ok (e, st4) => insertSlide { st4 with activeSlideEl := some e }
    else
      .ok (logInfo st1 atStartMsg)
/-- `jumpToSlide` from the source (`slideNo` is the raw JS number, so an
`Int` here): range check, then remove the current element, set the index
and render — with no `removeAttachedTargetStyles` and no `onEnd`. -/
def jumpToSlide (st : OrientState) (slideNo : Int) : Except String OrientState :=
  if slideNo < 1 ∨ slideNo > (st.flowData.length : Int) then
    .ok (logError st (jumpRangeMsg st.flowData.length))
  else
    match removeChild st.bodyChildren (st.activeSlideEl.map (fun e => e.elId)) with
    | .error e => .error e
    | .ok body =>
      let st1 := { st with bodyChildren := body, activeSlideIndex := some (slideNo - 1).toNat }
      match buildSlide st1 with
      | .error e => .error e
      | .ok (e, st2) => insertSlide { st2 with activeSlideEl := some e }
/-- `setFlowURL` from the source: stop the current flow, then store the
new URL.  Nothing touches `flowData`. -/
def setFlowURL (st : OrientState) (newURL : String) : Except String OrientState :=
  match stopFlow st with
  | .error e => .error e
  | .ok st1 => .ok { st1 with flowURL := newURL }
/-- The controller state right after `init` and a successful `flowLoaded`:
the option defaults of `init`, `flowData` set to the parsed slides, and
no slide rendered yet. -/
def loadedState (fd : List Slide) (pg : Page) : OrientState :=
  { flowURL := "flow.json"
    flowData := fd
    activeSlideIndex := some 0
    activeSlideEl := none
    attachTargetEl := none
    slideEl := none
    autoScroll := true
    overlay := true
    bodyChildren := []
    page := pg
    nextId := 0
    errors := []
    logs := []
    onEndRuns := []
    keydownListenerAttached := false }
/-- A slide's media block can be built without a thrown `TypeError`:
either absent, or of a recognized type. -/
def mediaOk : Option Media → Bool
  | none => true
  | some m => (m.type == some "video") || (m.type == some "image")
/-- Every slide of a flow has a buildable media block. -/
def mediaOkAll (fd : List Slide) : Bool :=
  fd.all (fun s => mediaOk s.media)
/-- `k` applications of `nextSlide`, propagating thrown errors. -/
def runNexts : Nat → OrientState → Except String OrientState
  | 0, st => .ok st
  | k + 1, st =>
    match nextSlide st with
    | .error e => .error e
    | .ok st1 => runNexts k st1
deriving instance DecidableEq for Except
set_option maxRecDepth 40000
/-- A plain modal slide. -/
def modalSlide : Slide :=
  { title := "m", body := "b", style := "modal", target := none, media := none,
    extraClasses := [], onShow := none, onEnd := none }
/-- A float slide attached to the given selector. -/
def floatSlideTo (t : String) : Slide :=
  { title := "f", body := "b", style := "float", target := some t, media := none,
    extraClasses := [], onShow := none, onEnd := none }
/-- A float slide whose `target` property is absent. -/
def floatSlideNoTarget : Slide :=
  { title := "f", body := "b", style := "float", target := none, media := none,
    extraClasses := [], onShow := none, onEnd := none }
/-- The target box of the worked example in the spec:
`{left:100, top:50, width:80, height:20}`. -/
def exRect : Rect := { left := 100, right := 180, top := 50, bottom := 70, height := 20, width := 80 }
/-- A freshly created float slide element, before positioning. -/
def slBlank : SlideElState :=
  { classes := ["animated", "fadeInDown", "orient-slide", "orient-slide--float"],
    styleTop := none, styleLeft := none, styleRight := none }
/-- A page holding one target element (id 0) reachable as `#t1`. -/
def pgOne (r : Rect) (w v sx sy : Rat) : Page :=
  { els := [{ tid := 0, rect := r, classes := [], hasStyleAttr := true }],
    queryMap := [("#t1", 0)], innerWidth := w, innerHeight := v, scrollX := sx, scrollY := sy }
/-- The controller invariant while a tour is active at index `k` of an
`N`-slide flow whose media blocks are buildable, on a well-formed page. -/
def ActiveInv (N k : Nat) (st : OrientState) : Prop :=
  st.flowData.length = N ∧ mediaOkAll st.flowData = true ∧ st.page.wf = true ∧
  st.activeSlideIndex = some k ∧
  ∃ e, st.activeSlideEl = some e ∧ e.slideIndex = k ∧ e.elId ∈ st.bodyChildren
def c1Flow : List Slide := [modalSlide, floatSlideTo "#t1", modalSlide]
def c1Page : Page := pgOne exRect 1200 800 0 0
def c5El : SlideWrapperEl :=
  { elId := 7, slideIndex := 0, mediaEl := none, hasOverlay := true,
    hasPrevButton := false, hasNextButton := true, hasOnShowScript := false }
def c5State : OrientState :=
  { loadedState [modalSlide, modalSlide] c1Page with
      activeSlideEl := some c5El, bodyChildren := [7] }
def c6State : OrientState :=
  { loadedState [modalSlide, modalSlide] c1Page with
      activeSlideEl := some c5El, bodyChildren := [7] }
def c10State : OrientState :=
  { loadedState [modalSlide, modalSlide] c1Page with
      activeSlideIndex := none, activeSlideEl := none }
def c7State (r : Rect) (w v : Rat) : OrientState :=
  { loadedState [floatSlideTo "#t1"] (pgOne r w v 0 0) with
      slideEl := some slBlank, autoScroll := false }
def c3State : OrientState :=
  { loadedState [floatSlideNoTarget] c1Page with slideEl := some slBlank }
def c3bState : OrientState :=
  { loadedState [floatSlideTo "#zz"] c1Page with slideEl := some slBlank }
def c9State (r : Rect) (w v sx sy : Rat) : OrientState :=
  { loadedState [floatSlideTo "#t1"] (pgOne r w v sx sy) with slideEl := some slBlank }
def c2State : OrientState := loadedState [floatSlideTo "#t1", modalSlide] c1Page
def badMediaSlide : Slide :=
  { title := "m", body := "b", style := "modal", target := none,
    media := some { type := some "audio", url := some "a.mp3", muted := none,
                    loop := none, controls := none, autoplay := none },
    extraClasses := [], onShow := none, onEnd := none }
def badMediaSlideNoUrl : Slide :=
  { title := "m", body := "b", style := "modal", target := none,
    media := some { type := some "audio", url := none, muted := none,
                    loop := none, controls := none, autoplay := none },
    extraClasses := [], onShow := none, onEnd := none }
def imgNoUrlSlide : Slide :=
  { title := "m", body := "b", style := "modal", target := none,
    media := some { type := some "image", url := none, muted := none,
                    loop := none, controls := none, autoplay := none },
    extraClasses := [], onShow := none, onEnd := none }
def c8State : OrientState := loadedState [modalSlide] c1Page

/-! ## Theorems -/

theorem any_tid_map (els : List TargetEl) (f : TargetEl → TargetEl)
    (hf : ∀ el, (f el).tid = el.tid) (tid : Nat) :
    (els.map f).any (fun el => el.tid == tid) = els.any (fun el => el.tid == tid) := by
  rw [List.any_map]
  apply congrArg
  funext el
  simp [Function.comp, hf el]
theorem addTargetClass_tid (tid : Nat) (el : TargetEl) :
    (if el.tid == tid then { el with classes := addClass el.classes "orient-target-el" } else el).tid
      = el.tid := by
  split <;> rfl
theorem clearTargetStyles_tid (tid : Nat) (el : TargetEl) :
    (if el.tid == tid then
        { el with classes := el.classes.erase "orient-target-el", hasStyleAttr := false }
      else el).tid = el.tid := by
  split <;> rfl
theorem addTargetClass_wf (p : Page) (tid : Nat) : (addTargetClass p tid).wf = p.wf := by
  simp only [Page.wf, addTargetClass]
  apply congrArg
  funext qp
  exact any_tid_map p.els _ (addTargetClass_tid tid) qp.2
theorem clearTargetStyles_wf (p : Page) (tid : Nat) : (clearTargetStyles p tid).wf = p.wf := by
  simp only [Page.wf, clearTargetStyles]
  apply congrArg
  funext qp
  exact any_tid_map p.els _ (clearTargetStyles_tid tid) qp.2
theorem removeAttachedTargetStyles_wf (st : OrientState) :
    (removeAttachedTargetStyles st).page.wf = st.page.wf := by
  unfold removeAttachedTargetStyles
  cases st.attachTargetEl with
  | none => rfl
  | some tid => exact clearTargetStyles_wf st.page tid
theorem lookup_mem {l : List (String × Nat)} {q : String} {tid : Nat}
    (h : l.lookup q = some tid) : (q, tid) ∈ l := by
  induction l with
  | nil => simp [List.lookup] at h
  | cons p l ih =>
    cases p with
    | mk a b =>
      rw [List.lookup] at h
      split at h
      · rename_i heq
        cases h
        have hq : q = a := eq_of_beq heq
        subst hq
        exact List.mem_cons_self _ _
      · exact List.mem_cons_of_mem _ (ih h)
theorem getEl_of_lookup {p : Page} {q : String} {tid : Nat}
    (hwf : p.wf = true) (h : p.queryMap.lookup q = some tid) :
    ∃ tEl, getEl p tid = some tEl := by
  have hmem : (q, tid) ∈ p.queryMap := lookup_mem h
  have hany : p.els.any (fun el => el.tid == tid) = true :=
    (List.all_eq_true).1 hwf _ hmem
  have hsome : (p.els.find? (fun el => el.tid == tid)).isSome = true := by
    rw [List.find?_isSome]
    exact List.any_eq_true.1 hany
  rcases Option.isSome_iff_exists.1 hsome with ⟨tEl, hEl⟩
  exact ⟨tEl, hEl⟩
theorem wf_trans_true {p q : Page} (h : p.wf = q.wf) (hq : q.wf = true) : p.wf = true :=
  h.trans hq
/-- `positionSlide` never throws when the active slide exists and the inner
slide element is set; it leaves the navigation-relevant state untouched. -/
theorem positionSlide_ok (st : OrientState) (idx : Nat) (sd : Slide) (sl : SlideElState)
    (h1 : st.activeSlideIndex = some idx) (h2 : st.flowData[idx]? = some sd)
    (h3 : st.slideEl = some sl) (h4 : st.page.wf = true) :
    ∃ st', positionSlide st = .ok st' ∧
      st'.flowData = st.flowData ∧ st'.activeSlideIndex = st.activeSlideIndex ∧
      st'.activeSlideEl = st.activeSlideEl ∧ st'.bodyChildren = st.bodyChildren ∧
      st'.nextId = st.nextId ∧ st'.page.wf = true ∧ st'.onEndRuns = st.onEndRuns ∧
      st'.slideEl.isSome = true := by
  cases htar : sd.target with
  | none =>
    simp only [positionSlide, getActiveSlide, h1, h2, htar]
    exact ⟨st, rfl, rfl, h1, rfl, rfl, rfl, h4, rfl, by rw [h3]; rfl⟩
  | some t =>
    by_cases ht : t = ""
    · subst ht
      simp only [positionSlide, getActiveSlide, h1, h2, htar, if_pos rfl]
      exact ⟨st, rfl, rfl, h1, rfl, rfl, rfl, h4, rfl, by rw [h3]; rfl⟩
    · cases hres : st.page.queryMap.lookup (targetQuery t) with
      | none =>
        simp only [positionSlide, getActiveSlide, h1, h2, htar, if_neg ht, hres, logError, h3]
        exact ⟨_, rfl, rfl, rfl, rfl, rfl, rfl, h4, rfl, rfl⟩
      | some tid =>
        obtain ⟨tEl, hEl⟩ := getEl_of_lookup (p := addTargetClass st.page tid)
          (q := targetQuery t) (wf_trans_true (addTargetClass_wf st.page tid) h4) hres
        simp only [positionSlide, getActiveSlide, h1, h2, htar, if_neg ht, hres, h3, hEl]
        split
        · split
          · exact ⟨_, rfl, rfl, rfl, rfl, rfl, rfl,
              wf_trans_true (addTargetClass_wf st.page tid) h4, rfl, rfl⟩
          · exact ⟨_, rfl, rfl, rfl, rfl, rfl, rfl,
              wf_trans_true (addTargetClass_wf st.page tid) h4, rfl, rfl⟩
        · split
          · exact ⟨_, rfl, rfl, rfl, rfl, rfl, rfl,
              wf_trans_true (addTargetClass_wf st.page tid) h4, rfl, rfl⟩
          · exact ⟨_, rfl, rfl, rfl, rfl, rfl, rfl,
              wf_trans_true (addTargetClass_wf st.page tid) h4, rfl, rfl⟩
/-- The media section never throws on a buildable media block, and touches
nothing but the error log. -/
theorem buildMedia_ok (st : OrientState) (idx : Nat) (sd : Slide)
    (h3 : mediaOk sd.media = true) :
    ∃ mediaEl st', buildMedia st idx sd = .ok (mediaEl, st') ∧
      st'.flowData = st.flowData ∧ st'.activeSlideIndex = st.activeSlideIndex ∧
      st'.activeSlideEl = st.activeSlideEl ∧ st'.bodyChildren = st.bodyChildren ∧
      st'.page = st.page ∧ st'.onEndRuns = st.onEndRuns ∧ st'.nextId = st.nextId ∧
      st'.slideEl = st.slideEl := by
  cases hm : sd.media with
  | none =>
    simp only [buildMedia, hm]
    exact ⟨none, st, rfl, rfl, rfl, rfl, rfl, rfl, rfl, rfl, rfl⟩
  | some m =>
    rw [hm] at h3
    simp only [mediaOk, Bool.or_eq_true] at h3
    rcases h3 with htype | htype
    · have htype' : m.type = some "video" := eq_of_beq htype
      cases hurl : m.url with
      | none =>
        simp only [buildMedia, hm, htype', hurl, logError]
        exact ⟨_, _, rfl, rfl, rfl, rfl, rfl, rfl, rfl, rfl, rfl⟩
      | some u =>
        simp only [buildMedia, hm, htype', hurl]
        exact ⟨_, _, rfl, rfl, rfl, rfl, rfl, rfl, rfl, rfl, rfl⟩
    · have htype' : m.type = some "image" := eq_of_beq htype
      cases hurl : m.url with
      | none =>
        simp only [buildMedia, hm, htype', hurl, logError]
        exact ⟨_, _, rfl, rfl, rfl, rfl, rfl, rfl, rfl, rfl, rfl⟩
      | some u =>
        simp only [buildMedia, hm, htype', hurl]
        exact ⟨_, _, rfl, rfl, rfl, rfl, rfl, rfl, rfl, rfl, rfl⟩
/-- `buildSlideCore` succeeds on a buildable slide and preserves the
navigation-relevant state, handing back a wrapper with a fresh id. -/
theorem buildSlideCore_ok (st : OrientState) (idx : Nat) (sd : Slide)
    (h1 : st.activeSlideIndex = some idx) (h2 : st.flowData[idx]? = some sd)
    (h3 : mediaOk sd.media = true) (h4 : st.page.wf = true) :
    ∃ e st', buildSlideCore st idx sd = .ok (e, st') ∧
      e.slideIndex = idx ∧ e.elId = st.nextId ∧
      st'.flowData = st.flowData ∧ st'.activeSlideIndex = st.activeSlideIndex ∧
      st'.activeSlideEl = st.activeSlideEl ∧ st'.bodyChildren = st.bodyChildren ∧
      st'.page.wf = true ∧ st'.onEndRuns = st.onEndRuns ∧ st'.nextId = st.nextId + 1 := by
  by_cases hstyle : sd.style = "float"
  · obtain ⟨stP, hP, pfd, pidx, pel, pbody, pnid, pwf, poe, pslE⟩ :=
      positionSlide_ok
        { st with attachTargetEl := none, slideEl := some (freshSlideEl sd) }
        idx sd _ h1 h2 rfl h4
    obtain ⟨mEl, stM, hM, mfd, midx, mel, mbody, mpg, moe, mnid, mslE⟩ :=
      buildMedia_ok stP idx sd h3
    simp only [buildSlideCore, if_pos hstyle, hP, hM]
    refine ⟨_, _, rfl, rfl, ?_, ?_, ?_, ?_, ?_, ?_, ?_, ?_⟩
    · exact mnid.trans pnid
    · exact mfd.trans pfd
    · exact midx.trans pidx
    · exact mel.trans pel
    · exact mbody.trans pbody
    · rw [mpg]; exact pwf
    · exact moe.trans poe
    · exact congrArg (fun n => n + 1) (mnid.trans pnid)
  · obtain ⟨mEl, stM, hM, mfd, midx, mel, mbody, mpg, moe, mnid, mslE⟩ :=
      buildMedia_ok { st with slideEl := some (freshSlideEl sd) } idx sd h3
    simp only [buildSlideCore, if_neg hstyle, hM]
    refine ⟨_, _, rfl, rfl, ?_, ?_, ?_, ?_, ?_, ?_, ?_, ?_⟩
    · exact mnid
    · exact mfd
    · exact midx
    · exact mel
    · exact mbody
    · rw [mpg]; exact h4
    · exact moe
    · exact congrArg (fun n => n + 1) mnid
theorem buildSlide_ok (st : OrientState) (idx : Nat) (sd : Slide)
    (h1 : st.activeSlideIndex = some idx) (h2 : st.flowData[idx]? = some sd)
    (h3 : mediaOk sd.media = true) (h4 : st.page.wf = true) :
    ∃ e st', buildSlide st = .ok (e, st') ∧
      e.slideIndex = idx ∧ e.elId = st.nextId ∧
      st'.flowData = st.flowData ∧ st'.activeSlideIndex = st.activeSlideIndex ∧
      st'.activeSlideEl = st.activeSlideEl ∧ st'.bodyChildren = st.bodyChildren ∧
      st'.page.wf = true ∧ st'.onEndRuns = st.onEndRuns ∧ st'.nextId = st.nextId + 1 := by
  obtain ⟨e, st', hcore, hrest⟩ := buildSlideCore_ok st idx sd h1 h2 h3 h4
  refine ⟨e, st', ?_, hrest⟩
  simp only [buildSlide, getActiveSlide, h1, h2]
  exact hcore
theorem removeChild_some {body : List Nat} {i : Nat} (h : i ∈ body) :
    removeChild body (some i) = .ok (body.erase i) := by
  simp only [removeChild]
  rw [if_pos h]
@[simp] theorem rATS_flowData (st : OrientState) :
    (removeAttachedTargetStyles st).flowData = st.flowData := by
  unfold removeAttachedTargetStyles; cases st.attachTargetEl <;> rfl
@[simp] theorem rATS_activeSlideIndex (st : OrientState) :
    (removeAttachedTargetStyles st).activeSlideIndex = st.activeSlideIndex := by
  unfold removeAttachedTargetStyles; cases st.attachTargetEl <;> rfl
@[simp] theorem rATS_activeSlideEl (st : OrientState) :
    (removeAttachedTargetStyles st).activeSlideEl = st.activeSlideEl := by
  unfold removeAttachedTargetStyles; cases st.attachTargetEl <;> rfl
@[simp] theorem rATS_bodyChildren (st : OrientState) :
    (removeAttachedTargetStyles st).bodyChildren = st.bodyChildren := by
  unfold removeAttachedTargetStyles; cases st.attachTargetEl <;> rfl
@[simp] theorem rATS_nextId (st : OrientState) :
    (removeAttachedTargetStyles st).nextId = st.nextId := by
  unfold removeAttachedTargetStyles; cases st.attachTargetEl <;> rfl
@[simp] theorem rATS_onEndRuns (st : OrientState) :
    (removeAttachedTargetStyles st).onEndRuns = st.onEndRuns := by
  unfold removeAttachedTargetStyles; cases st.attachTargetEl <;> rfl
@[simp] theorem rATS_errors (st : OrientState) :
    (removeAttachedTargetStyles st).errors = st.errors := by
  unfold removeAttachedTargetStyles; cases st.attachTargetEl <;> rfl
@[simp] theorem rATS_logs (st : OrientState) :
    (removeAttachedTargetStyles st).logs = st.logs := by
  unfold removeAttachedTargetStyles; cases st.attachTargetEl <;> rfl
@[simp] theorem rATS_wf (st : OrientState) :
    (removeAttachedTargetStyles st).page.wf = st.page.wf :=
  removeAttachedTargetStyles_wf st
theorem mediaOk_of_all {fd : List Slide} {idx : Nat} {sd : Slide}
    (hall : mediaOkAll fd = true) (h : fd[idx]? = some sd) : mediaOk sd.media = true := by
  have hmem : sd ∈ fd := by
    have := List.getElem?_eq_some.1 h
    rcases this with ⟨hlt, hget⟩
    exact hget ▸ List.getElem_mem hlt
  exact List.all_eq_true.1 hall sd hmem
/-- One `nextSlide` step taken strictly before the last slide lands in the
next active state. -/
theorem nextSlide_step (N k : Nat) (st : OrientState)
    (h : ActiveInv N k st) (hk : k + 1 < N) :
    ∃ st', nextSlide st = .ok st' ∧ ActiveInv N (k + 1) st' := by
  obtain ⟨hN, hm, hw, hidx, e, hel, hesl, hemem⟩ := h
  have hkN : k < st.flowData.length := by rw [hN]; omega
  have hk1N : k + 1 < st.flowData.length := by rw [hN]; omega
  obtain ⟨sd, hsd⟩ : ∃ sd, st.flowData[k]? = some sd := ⟨_, List.getElem?_eq_getElem hkN⟩
  obtain ⟨sd1, hsd1⟩ : ∃ sd, st.flowData[k + 1]? = some sd := ⟨_, List.getElem?_eq_getElem hk1N⟩
  have hrm : removeChild st.bodyChildren (st.activeSlideEl.map (fun x => x.elId))
      = .ok (st.bodyChildren.erase e.elId) := by
    rw [hel]
    exact removeChild_some hemem
  simp only [nextSlide, hrm]
  set st1 := removeAttachedTargetStyles { st with bodyChildren := st.bodyChildren.erase e.elId }
    with hst1
  have h1fd : st1.flowData = st.flowData := by rw [hst1]; simp
  have h1idx : st1.activeSlideIndex = some k := by rw [hst1]; simp [hidx]
  have h1wf : st1.page.wf = true := by rw [hst1]; simp [hw]
  have h1sd : st1.flowData[k]? = some sd := by rw [h1fd]; exact hsd
  have h1sd1 : st1.flowData[k + 1]? = some sd1 := by rw [h1fd]; exact hsd1
  have h1len : st1.flowData.length = N := by rw [h1fd, hN]
  simp only [getActiveSlide, h1idx, h1sd]
  cases honend : truthyStr sd.onEnd with
  | true =>
    simp only [honend, if_true]
    obtain ⟨eB, stB, hB, hBsl, hBid, hBfd, hBidx, hBel, hBbody, hBwf, hBoe, hBnid⟩ :=
      buildSlide_ok
        { st1 with onEndRuns := st1.onEndRuns ++ [k], activeSlideIndex := some (k + 1) }
        (k + 1) sd1 rfl h1sd1 (mediaOk_of_all hm hsd1) h1wf
    split
    · rename_i hgt
      exfalso
      simp only [h1fd, hN] at hgt
      omega
    · simp only [hB, insertSlide]
      refine ⟨_, rfl, ?_, ?_, ?_, ?_, eB, rfl, hBsl, ?_⟩
      · have : stB.flowData = st.flowData := hBfd.trans h1fd
        simp only [this, hN]
      · have : stB.flowData = st.flowData := hBfd.trans h1fd
        rw [this]; exact hm
      · exact hBwf
      · exact hBidx
      · exact List.mem_append_right _ (List.mem_singleton.2 rfl)
  | false =>
    simp only [honend, Bool.false_eq_true, if_false]
    obtain ⟨eB, stB, hB, hBsl, hBid, hBfd, hBidx, hBel, hBbody, hBwf, hBoe, hBnid⟩ :=
      buildSlide_ok { st1 with activeSlideIndex := some (k + 1) }
        (k + 1) sd1 rfl h1sd1 (mediaOk_of_all hm hsd1) h1wf
    split
    · rename_i hgt
      exfalso
      simp only [h1fd, hN] at hgt
      omega
    · simp only [hB, insertSlide]
      refine ⟨_, rfl, ?_, ?_, ?_, ?_, eB, rfl, hBsl, ?_⟩
      · have : stB.flowData = st.flowData := hBfd.trans h1fd
        simp only [this, hN]
      · have : stB.flowData = st.flowData := hBfd.trans h1fd
        rw [this]; exact hm
      · exact hBwf
      · exact hBidx
      · exact List.mem_append_right _ (List.mem_singleton.2 rfl)
/-- `nextSlide` from the last slide tears the tour down:
no element, no index. -/
theorem nextSlide_last (N : Nat) (st : OrientState)
    (h : ActiveInv N (N - 1) st) (hN : 1 ≤ N) :
    ∃ st', nextSlide st = .ok st' ∧
      st'.activeSlideEl = none ∧ st'.activeSlideIndex = none := by
  obtain ⟨hlen, hm, hw, hidx, e, hel, hesl, hemem⟩ := h
  have hkN : N - 1 < st.flowData.length := by rw [hlen]; omega
  obtain ⟨sd, hsd⟩ : ∃ sd, st.flowData[N - 1]? = some sd := ⟨_, List.getElem?_eq_getElem hkN⟩
  have hrm : removeChild st.bodyChildren (st.activeSlideEl.map (fun x => x.elId))
      = .ok (st.bodyChildren.erase e.elId) := by
    rw [hel]
    exact removeChild_some hemem
  simp only [nextSlide, hrm]
  set st1 := removeAttachedTargetStyles { st with bodyChildren := st.bodyChildren.erase e.elId }
    with hst1
  have h1fd : st1.flowData = st.flowData := by rw [hst1]; simp
  have h1idx : st1.activeSlideIndex = some (N - 1) := by rw [hst1]; simp [hidx]
  have h1sd : st1.flowData[N - 1]? = some sd := by rw [h1fd]; exact hsd
  simp only [getActiveSlide, h1idx, h1sd]
  cases honend : truthyStr sd.onEnd with
  | true =>
    simp only [honend, if_true]
    split
    · simp only [stopFlow]
      exact ⟨_, rfl, rfl, rfl⟩
    · rename_i hle
      exfalso
      apply hle
      show N - 1 + 1 > st1.flowData.length - 1
      rw [h1fd, hlen]
      omega
  | false =>
    simp only [honend, Bool.false_eq_true, if_false]
    split
    · simp only [stopFlow]
      exact ⟨_, rfl, rfl, rfl⟩
    · rename_i hle
      exfalso
      apply hle
      show N - 1 + 1 > st1.flowData.length - 1
      rw [h1fd, hlen]
      omega
theorem runNexts_inv (N : Nat) (j : Nat) :
    ∀ (k : Nat) (st : OrientState), ActiveInv N k st → k + j < N →
      ∃ st', runNexts j st = .ok st' ∧ ActiveInv N (k + j) st' := by
  induction j with
  | zero =>
    intro k st h _
    exact ⟨st, rfl, h⟩
  | succ j ih =>
    intro k st h hj
    obtain ⟨st1, h1, hinv1⟩ := nextSlide_step N k st h (by omega)
    obtain ⟨st', h2, hinv⟩ := ih (k + 1) st1 hinv1 (by omega)
    refine ⟨st', ?_, ?_⟩
    · simp only [runNexts, h1]
      exact h2
    · have hkj : k + (j + 1) = k + 1 + j := by omega
      rw [hkj]
      exact hinv
theorem runNexts_succ_right (j : Nat) :
    ∀ st, runNexts (j + 1) st =
      match runNexts j st with
      | .error e => .error e
      | .ok st1 => nextSlide st1 := by
  induction j with
  | zero =>
    intro st
    simp only [runNexts]
    cases nextSlide st <;> rfl
  | succ j ih =>
    intro st
    simp only [runNexts]
    cases h : nextSlide st with
    | error e => rfl
    | ok st1 => exact ih st1
/-- Starting a freshly loaded non-empty flow renders slide 0. -/
theorem startFlow_loaded (fd : List Slide) (pg : Page)
    (hN : 1 ≤ fd.length) (hm : mediaOkAll fd = true) (hw : pg.wf = true) :
    ∃ s0, startFlow (loadedState fd pg) = .ok s0 ∧ ActiveInv fd.length 0 s0 := by
  have h0 : (0 : Nat) < fd.length := hN
  obtain ⟨sd, hsd⟩ : ∃ sd, fd[0]? = some sd := ⟨_, List.getElem?_eq_getElem h0⟩
  obtain ⟨eB, stB, hB, hBsl, hBid, hBfd, hBidx, hBel, hBbody, hBwf, hBoe, hBnid⟩ :=
    buildSlide_ok { loadedState fd pg with activeSlideIndex := some 0 } 0 sd rfl hsd
      (mediaOk_of_all hm hsd) hw
  simp only [startFlow, hB, insertSlide]
  refine ⟨_, rfl, ?_, ?_, ?_, ?_, eB, rfl, hBsl, ?_⟩
  · rw [hBfd]
    exact rfl
  · rw [hBfd]; exact hm
  · exact hBwf
  · exact hBidx
  · exact List.mem_append_right _ (List.mem_singleton.2 rfl)
/-- C1: for every loaded flow of length N ≥ 1 (buildable media, well-formed
page), start() renders slide 0 and k subsequent next() calls (k < N) leave
the controller at index k with slide k rendered — so the index takes the
values 0, 1, ..., N-1 in order — and the N-th next() returns the controller
to Idle: no rendered slide element and the index unset (null). -/
theorem C1_start_next_cycle (fd : List Slide) (pg : Page)
    (hN : 1 ≤ fd.length) (hm : mediaOkAll fd = true) (hw : pg.wf = true) :
    ∃ s0, startFlow (loadedState fd pg) = .ok s0 ∧
      (∀ k, k < fd.length → ∃ sk, runNexts k s0 = .ok sk ∧
        sk.activeSlideIndex = some k ∧
        ∃ e, sk.activeSlideEl = some e ∧ e.slideIndex = k) ∧
      (∃ sN, runNexts fd.length s0 = .ok sN ∧
        sN.activeSlideEl = none ∧ sN.activeSlideIndex = none) := by
  obtain ⟨s0, hs0, hinv0⟩ := startFlow_loaded fd pg hN hm hw
  refine ⟨s0, hs0, ?_, ?_⟩
  · intro k hk
    obtain ⟨sk, hrun, hinv⟩ := runNexts_inv fd.length k 0 s0 hinv0 (by omega)
    obtain ⟨_, _, _, hidx, e, hel, hesl, _⟩ := hinv
    exact ⟨sk, hrun, by simpa using hidx, e, hel, by simpa using hesl⟩
  · have hN1 : fd.length - 1 + 1 = fd.length := by omega
    obtain ⟨sk, hrun, hinv⟩ := runNexts_inv fd.length (fd.length - 1) 0 s0 hinv0 (by omega)
    have hinv' : ActiveInv fd.length (fd.length - 1) sk := by simpa using hinv
    obtain ⟨sN, hstep, helN, hidxN⟩ := nextSlide_last fd.length sk hinv' hN
    refine ⟨sN, ?_, helN, hidxN⟩
    have hsucc := runNexts_succ_right (fd.length - 1) s0
    rw [hN1] at hsucc
    rw [hsucc, hrun]
    exact hstep
theorem C1_start_next_cycle_witness :
    mediaOkAll c1Flow = true ∧ c1Page.wf = true ∧
    (∃ s0, startFlow (loadedState c1Flow c1Page) = .ok s0 ∧
      (∀ k, k < c1Flow.length → ∃ sk, runNexts k s0 = .ok sk ∧
        sk.activeSlideIndex = some k ∧
        ∃ e, sk.activeSlideEl = some e ∧ e.slideIndex = k) ∧
      (∃ sN, runNexts c1Flow.length s0 = .ok sN ∧
        sN.activeSlideEl = none ∧ sN.activeSlideIndex = none)) :=
  ⟨by decide, by decide,
    C1_start_next_cycle c1Flow c1Page (by decide) (by decide) (by decide)⟩
/-- C5: `jump(n)` validates its 1-based argument: out of range it only
reports an error (no tour-state change); in range it removes the current
element, sets the index to n-1, renders exactly slide n-1, and never runs
the current slide's `onEnd`. -/
theorem C5_jump_validation (st : OrientState) (n : Int) (e : SlideWrapperEl)
    (hEl : st.activeSlideEl = some e) (hMem : e.elId ∈ st.bodyChildren)
    (hm : mediaOkAll st.flowData = true) (hw : st.page.wf = true) :
    ((n < 1 ∨ n > (st.flowData.length : Int)) →
      jumpToSlide st n = .ok { st with errors := st.errors ++ [jumpRangeMsg st.flowData.length] }) ∧
    (1 ≤ n → n ≤ (st.flowData.length : Int) →
      ∃ st', jumpToSlide st n = .ok st' ∧
        st'.activeSlideIndex = some (n - 1).toNat ∧
        (∃ e2, st'.activeSlideEl = some e2 ∧ e2.slideIndex = (n - 1).toNat ∧
          st'.bodyChildren = st.bodyChildren.erase e.elId ++ [e2.elId]) ∧
        st'.onEndRuns = st.onEndRuns ∧ st'.page.wf = true) := by
  constructor
  · intro hrange
    simp only [jumpToSlide, if_pos hrange, logError]
  · intro hlo hhi
    have hnot : ¬(n < 1 ∨ n > (st.flowData.length : Int)) := by omega
    have hidx : (n - 1).toNat < st.flowData.length := by omega
    obtain ⟨sd, hsd⟩ : ∃ sd, st.flowData[(n - 1).toNat]? = some sd :=
      ⟨_, List.getElem?_eq_getElem hidx⟩
    have hrm : removeChild st.bodyChildren (st.activeSlideEl.map (fun x => x.elId))
        = .ok (st.bodyChildren.erase e.elId) := by
      rw [hEl]
      exact removeChild_some hMem
    simp only [jumpToSlide, if_neg hnot, hrm]
    obtain ⟨eB, stB, hB, hBsl, hBid, hBfd, hBidx, hBel, hBbody, hBwf, hBoe, hBnid⟩ :=
      buildSlide_ok
        { st with bodyChildren := st.bodyChildren.erase e.elId,
                  activeSlideIndex := some (n - 1).toNat }
        ((n - 1).toNat) sd rfl hsd (mediaOk_of_all hm hsd) hw
    simp only [hB, insertSlide]
    refine ⟨_, rfl, hBidx, ⟨eB, rfl, hBsl, ?_⟩, hBoe, hBwf⟩
    rw [hBbody]
theorem C5_jump_validation_witness :
    ∃ st', jumpToSlide c5State 2 = .ok st' ∧
      st'.activeSlideIndex = some ((2 : Int) - 1).toNat ∧
      (∃ e2, st'.activeSlideEl = some e2 ∧ e2.slideIndex = ((2 : Int) - 1).toNat ∧
        st'.bodyChildren = c5State.bodyChildren.erase c5El.elId ++ [e2.elId]) ∧
      st'.onEndRuns = c5State.onEndRuns ∧ st'.page.wf = true :=
  (C5_jump_validation c5State 2 c5El rfl (by decide) (by decide) (by decide)).2
    (by decide) (by decide)
/-- C6: `previous()` at index 0 logs the at-start diagnostic and leaves
the tour state unchanged: same index, same rendered element (identity),
same page body and page. -/
theorem C6_prev_at_start (st : OrientState) (sd : Slide)
    (h0 : st.activeSlideIndex = some 0) (hsd : st.flowData[0]? = some sd) :
    ∃ st', prevSlide st = .ok st' ∧
      st'.activeSlideIndex = some 0 ∧ st'.activeSlideEl = st.activeSlideEl ∧
      st'.bodyChildren = st.bodyChildren ∧ st'.page = st.page ∧
      st'.logs = st.logs ++ [atStartMsg] := by
  simp only [prevSlide, getActiveSlide, h0, hsd]
  cases honend : truthyStr sd.onEnd with
  | true =>
    simp only [honend, if_true, lt_self_iff_false, ite_false, logInfo]
    exact ⟨_, rfl, rfl, rfl, rfl, rfl, rfl⟩
  | false =>
    simp only [honend, Bool.false_eq_true, if_false, lt_self_iff_false, ite_false, logInfo]
    exact ⟨_, rfl, h0, rfl, rfl, rfl, rfl⟩
theorem C6_prev_at_start_witness :
    ∃ st', prevSlide c6State = .ok st' ∧
      st'.activeSlideIndex = some 0 ∧ st'.activeSlideEl = c6State.activeSlideEl ∧
      st'.bodyChildren = c6State.bodyChildren ∧ st'.page = c6State.page ∧
      st'.logs = c6State.logs ++ [atStartMsg] :=
  C6_prev_at_start c6State modalSlide rfl rfl
/-- C10: with no slide rendered (Idle, e.g. after stop() or before
start()), `jump(n)` with an in-range n reaches the removal step with a
null active slide element and throws there — the unstated precondition of
jump is that a slide is currently rendered. -/
theorem C10_jump_idle (st : OrientState) (n : Int)
    (hIdle : st.activeSlideEl = none) (hlo : 1 ≤ n)
    (hhi : n ≤ (st.flowData.length : Int)) :
    jumpToSlide st n = .error removeChildNullMsg := by
  have hnot : ¬(n < 1 ∨ n > (st.flowData.length : Int)) := by omega
  simp only [jumpToSlide, if_neg hnot, hIdle, Option.map_none', removeChild]
theorem C10_jump_idle_witness :
    jumpToSlide c10State 1 = .error removeChildNullMsg :=
  C10_jump_idle c10State 1 rfl (by decide) (by decide)
/-- C7: for a resolved float target with absolute box `r` and viewport
width `w`: if `r.left + 360 > w` the slide is right-aligned with
`right = w - r.right` and flagged with the aligned-right class, otherwise
left-aligned at `left = r.left`; in both cases `top = r.top + r.height`.
In particular, for the box {left:100, top:50, width:80, height:20}:
with w = 1200 the slide sits at left=100, top=70; with w = 400 it is
right-aligned with right = 400 - 180 = 220. -/
theorem C7_horizontal_placement (r : Rect) (w v : Rat) :
    (∃ st', positionSlide (c7State r w v) = .ok st' ∧ ∃ sl, st'.slideEl = some sl ∧
      sl.styleTop = some (r.top + r.height) ∧
      (if r.left + 360 > w then
        sl.styleRight = some (w - r.right) ∧ sl.styleLeft = none ∧
          sl.classes.contains "orient-slide--aligned-right" = true
      else
        sl.styleLeft = some r.left ∧ sl.styleRight = none ∧
          sl.classes.contains "orient-slide--aligned-right" = false)) ∧
    ((positionSlide (c7State exRect 1200 800)).toOption.bind (fun s => s.slideEl) =
      some { classes := slBlank.classes, styleTop := some 70, styleLeft := some 100,
             styleRight := none }) ∧
    ((positionSlide (c7State exRect 400 800)).toOption.bind (fun s => s.slideEl) =
      some { classes := slBlank.classes ++ ["orient-slide--aligned-right"], styleTop := some 70,
             styleLeft := none, styleRight := some 220 }) := by
  refine ⟨?_, by with_unfolding_all decide, by with_unfolding_all decide⟩
  have hq : List.lookup (targetQuery "#t1") [("#t1", (0 : Nat))] = some 0 := rfl
  by_cases hcond : r.left + 360 > w
  · simp [c7State, positionSlide, getActiveSlide, loadedState, pgOne, floatSlideTo, hq,
      getEl, addTargetClass, addClass, getElAbsolutePosition, slBlank, hcond]
  · simp [c7State, positionSlide, getActiveSlide, loadedState, pgOne, floatSlideTo, hq,
      getEl, addTargetClass, addClass, getElAbsolutePosition, slBlank, hcond]
theorem C7_horizontal_placement_witness :
    ∃ st', positionSlide (c7State exRect 400 800) = .ok st' ∧ ∃ sl, st'.slideEl = some sl ∧
      sl.styleTop = some (exRect.top + exRect.height) ∧
      (if exRect.left + 360 > 400 then
        sl.styleRight = some (400 - exRect.right) ∧ sl.styleLeft = none ∧
          sl.classes.contains "orient-slide--aligned-right" = true
      else
        sl.styleLeft = some exRect.left ∧ sl.styleRight = none ∧
          sl.classes.contains "orient-slide--aligned-right" = false) :=
  (C7_horizontal_placement exRect 400 800).1
/-- C3 counterexample: on a float slide whose `target` is absent,
`positionSlide` returns with the whole state unchanged — in particular the
slide element keeps no inline position at all, so it is NOT pinned to
(0,0) as the claim says. -/
theorem C3_counterexample :
    positionSlide c3State = .ok c3State ∧
    c3State.slideEl = some slBlank ∧
    slBlank.styleTop ≠ some 0 ∧ slBlank.styleLeft ≠ some 0 := by
  refine ⟨by with_unfolding_all decide, rfl, by decide, by decide⟩
/-- C3 amended: positioning never crashes on a missing target, but the
degradation is split: an absent or empty `target` makes `positionSlide`
return immediately with the state unchanged (no styles written), while a
non-empty target that fails to resolve logs an error and pins the slide to
(0,0). -/
theorem C3_target_fallback (st : OrientState) (idx : Nat) (sd : Slide) (sl : SlideElState)
    (h1 : st.activeSlideIndex = some idx) (h2 : st.flowData[idx]? = some sd)
    (h3 : st.slideEl = some sl) :
    ((sd.target = none ∨ sd.target = some "") → positionSlide st = .ok st) ∧
    (∀ t, sd.target = some t → t ≠ "" →
      st.page.queryMap.lookup (targetQuery t) = none →
      positionSlide st = .ok
        { st with attachTargetEl := none
                  errors := st.errors ++ [attachErrMsg t]
                  slideEl := some { sl with styleTop := some 0, styleLeft := some 0 } }) := by
  constructor
  · rintro (htar | htar) <;>
      simp only [positionSlide, getActiveSlide, h1, h2, htar, ite_true, if_pos rfl]
  · intro t htar htne hres
    simp only [positionSlide, getActiveSlide, h1, h2, htar, if_neg htne, hres, logError, h3]
theorem C3_target_fallback_witness :
    positionSlide c3bState = .ok
      { c3bState with attachTargetEl := none
                      errors := c3bState.errors ++ [attachErrMsg "#zz"]
                      slideEl := some { slBlank with styleTop := some 0, styleLeft := some 0 } } :=
  (C3_target_fallback c3bState 0 (floatSlideTo "#zz") slBlank rfl rfl rfl).2 "#zz" rfl
    (by decide) rfl
/-- C9 amended: with auto-scroll enabled, positioning a resolved float
target with absolute top T = rect.top + scrollY and height H calls
`window.scrollTo(0, max 0 ((T + H) - V/2))`: the vertical offset is as
the claim states, but the horizontal scroll offset is set to 0 rather
than left untouched, so a horizontally-scrolled page is scrolled back to
x = 0 (no horizontal scroll toward the target is ever computed). -/
theorem C9_autoscroll (r : Rect) (w v sx sy : Rat) :
    ∃ st', positionSlide (c9State r w v sx sy) = .ok st' ∧
      st'.page.scrollY = max 0 ((r.top + sy + r.height) - v / 2) ∧
      st'.page.scrollX = 0 := by
  have hq : List.lookup (targetQuery "#t1") [("#t1", (0 : Nat))] = some 0 := rfl
  by_cases hcond : r.left + sx + 360 > w <;>
    simp [c9State, positionSlide, getActiveSlide, loadedState, pgOne, floatSlideTo, hq,
      getEl, addTargetClass, addClass, getElAbsolutePosition, slBlank, hcond] <;>
    rcases lt_or_le (r.top + sy + r.height) (v / 2) with h | h
  · rw [if_pos h]
    exact (max_eq_left (sub_nonpos.2 h.le)).symm
  · rw [if_neg (not_lt.2 h)]
    exact (max_eq_right (sub_nonneg.2 h)).symm
  · rw [if_pos h]
    exact (max_eq_left (sub_nonpos.2 h.le)).symm
  · rw [if_neg (not_lt.2 h)]
    exact (max_eq_right (sub_nonneg.2 h)).symm
theorem C9_autoscroll_witness :
    ∃ st', positionSlide (c9State exRect 1200 800 0 600) = .ok st' ∧
      st'.page.scrollY = max 0 ((exRect.top + 600 + exRect.height) - 800 / 2) ∧
      st'.page.scrollX = 0 :=
  C9_autoscroll exRect 1200 800 0 600
/-- C9 counterexample: with the page initially scrolled to x = 500,
positioning executes `scrollTo(0, …)` and the horizontal offset changes
from 500 to 0 — horizontal scrolling IS performed, contrary to the
claim. -/
theorem C9_counterexample :
    (c9State exRect 1200 800 500 0).page.scrollX = 500 ∧
    (positionSlide (c9State exRect 1200 800 500 0)).toOption.map (fun s => s.page.scrollX)
      = some 0 ∧
    (500 : Rat) ≠ 0 := by
  refine ⟨rfl, by with_unfolding_all decide, by with_unfolding_all decide⟩
/-- C2 (code bug): start() renders the float slide 1 and highlights its
target element; jump(2) then removes that slide WITHOUT clearing the
target styling (the `orient-target-el` class survives), whereas next()
from the very same state does clear it — `jumpToSlide` is the one removal
path with no `removeAttachedTargetStyles` call. -/
theorem C2_jump_leaves_target_styled :
    (((startFlow c2State).bind (fun s => jumpToSlide s 2)).toOption.bind
        (fun s => (getEl s.page 0).map (fun el => el.classes.contains "orient-target-el")))
      = some true ∧
    (((startFlow c2State).bind nextSlide).toOption.bind
        (fun s => (getEl s.page 0).map (fun el => el.classes.contains "orient-target-el")))
      = some false := by
  constructor <;> with_unfolding_all decide
/-- C4 (code bug): rendering a slide whose media.type is unrecognized
throws a TypeError instead of omitting the media element — with a URL
present at `slideMediaEl.src = …` on the undefined element, without one at
`appendChild(slideMediaEl)`.  (The second half of the claim is what the
code does do: a recognized type with no URL only logs the URL error and
renders the media element without a source.) -/
theorem C4_unknown_media_type_throws :
    startFlow (loadedState [badMediaSlide] c1Page) = .error setSrcUndefinedMsg ∧
    startFlow (loadedState [badMediaSlideNoUrl] c1Page) = .error appendChildUndefinedMsg ∧
    ((startFlow (loadedState [imgNoUrlSlide] c1Page)).toOption.map (fun s => s.errors))
      = some [mediaUrlMsg 0] ∧
    ((startFlow (loadedState [imgNoUrlSlide] c1Page)).toOption.bind
        (fun s => s.activeSlideEl.map (fun e => e.mediaEl)))
      = some (some (.img none)) := by
  refine ⟨?_, ?_, ?_, ?_⟩ <;> with_unfolding_all decide
/-- C8 counterexample: `setFlowURL` does NOT discard the loaded Flow: the
slide list after the call is exactly the previously loaded (non-empty)
data. -/
theorem C8_counterexample :
    (setFlowURL c8State "https://example.com/new-flow.json").toOption.map (fun s => s.flowData)
      = some c8State.flowData ∧
    c8State.flowData = [modalSlide] ∧ [modalSlide] ≠ ([] : List Slide) := by
  refine ⟨by with_unfolding_all decide, rfl, by decide⟩
/-- C8 amended: `setFlowURL(newURL)` implicitly stops the current tour
(rendered element removed, element and index unset, key listener
detached) and replaces the flow URL — but the loaded slide list is kept:
`flowData` is unchanged until a later `loadFlow` overwrites it. -/
theorem C8_setFlowURL (st : OrientState) (u : String)
    (h : st.activeSlideEl = none ∨ ∃ e, st.activeSlideEl = some e ∧ e.elId ∈ st.bodyChildren) :
    ∃ st', setFlowURL st u = .ok st' ∧ st'.flowURL = u ∧ st'.flowData = st.flowData ∧
      st'.activeSlideEl = none ∧ st'.activeSlideIndex = none ∧
      st'.keydownListenerAttached = false := by
  rcases h with h | ⟨e, hel, hmem⟩
  · simp only [setFlowURL, stopFlow, h]
    exact ⟨_, rfl, rfl, rfl, rfl, rfl, rfl⟩
  · simp only [setFlowURL, stopFlow, hel, removeChild_some hmem]
    refine ⟨_, rfl, rfl, ?_, rfl, rfl, rfl⟩
    simp
theorem C8_setFlowURL_witness :
    ∃ st', setFlowURL c8State "https://example.com/new-flow.json" = .ok st' ∧
      st'.flowURL = "https://example.com/new-flow.json" ∧
      st'.flowData = c8State.flowData ∧
      st'.activeSlideEl = none ∧ st'.activeSlideIndex = none ∧
      st'.keydownListenerAttached = false :=
  C8_setFlowURL c8State "https://example.com/new-flow.json" (Or.inl rfl)
